import Mathlib

/-!
Shallow embedding of the bridge event-relay pipeline in `src/script.py`
(classes `EventScanner`, `TransactionProcessor`, `CrossChainDispatcher`).

Modelling conventions:
* Python `int` block numbers become `Int` (the reorg rewind in
  `scan_for_events` can drive the cursor below zero, so `Nat` would be wrong).
* Python dict field access `d['k']` that can raise `KeyError`/`TypeError`
  becomes an `Option` field; a missing or malformed value is `none`.
* A `try`/`except` block becomes a `match` on an `Except` value (or on an
  injected fault constructor), with the handler's behaviour in the error arm.
* The chain is static during one call to `scan_for_events`: both reads of
  `web3.eth.block_number` (line 172 and line 204 of `script.py`) return the
  same height `Chain.head`.
* The web3 event filter (`create_filter` + `get_all_entries`) returns exactly
  the logs whose block number lies in the requested inclusive range; this is
  the documented contract of the external library, modelled by `get_all_entries`.
-/

namespace BridgeEventListener

/-- A decoded JSON-serializable Python value as it occurs in payload dicts:
the payloads built by `process_event` hold only ints and strings. -/
inductive JVal where
  | jint : Int → JVal
  | jstr : String → JVal
deriving DecidableEq, Repr

/-- The `args` dict of a decoded `TokensLocked` event (`event['args']`).
Each field is `Option`al: `none` models a missing or malformed entry whose
extraction raises `KeyError`/`TypeError`. -/
structure RawEventArgs where
  sender : Option String
  destinationChainId : Option Int
  receiver : Option String
  amount : Option Int
  nonce : Option Int
deriving DecidableEq, Repr

/-- A raw event dict as returned by the web3 log query and consumed by
`TransactionProcessor.process_event`. -/
structure RawEvent where
  args : Option RawEventArgs
  transactionHash : Option String
  blockNumber : Option Int
deriving DecidableEq, Repr

/-- The source chain as seen through the connector during one scan call:
a head height and the full log history of the bridge contract. -/
structure Chain where
  head : Int
  events : List RawEvent
deriving DecidableEq, Repr

/-- Whether an event's block number lies in the inclusive range
`[lo, hi]` — the filter predicate of the web3 event filter. -/
def inRange (lo hi : Int) (e : RawEvent) : Bool :=
  match e.blockNumber with
  | some n => decide (lo ≤ n) && decide (n ≤ hi)
  | none => false

/-- Model of `event_filter.get_all_entries()` for a filter created over
`[fromBlock, toBlock]`: the logs of the contract in that range. -/
def get_all_entries (c : Chain) (fromBlock toBlock : Int) : List RawEvent :=
  c.events.filter (inRange fromBlock toBlock)

/-- Which exception, if any, the query part of `scan_for_events` raises:
none (`ok`), `BlockNotFound` (line 200), or any other `Exception`
(line 206). -/
inductive ScanFault where
  | ok
  | blockNotFound
  | otherError
deriving DecidableEq, Repr

/-- The mutable state of `EventScanner`: its cursor `last_scanned_block`. -/
structure ScannerState where
  last_scanned_block : Int
deriving DecidableEq, Repr

/-- The outcome of one `scan_for_events` call: the scanner state afterwards,
the returned event list, and the block range actually queried (`none` when
the call returned before creating the event filter). -/
structure ScanResult where
  state : ScannerState
  events : List RawEvent
  queried : Option (Int × Int)
deriving DecidableEq, Repr

/-- Embedding of `EventScanner.scan_for_events` (script.py lines 162–208).
`connected` is `self.connector.web3 and self.connector.web3.is_connected()`;
`confirmation_blocks` is `self.config['confirmation_blocks']`;
`fault` injects the exception raised by the filter query, if any. -/
def scan_for_events (chain : Chain) (confirmation_blocks : Int) (connected : Bool)
    (fault : ScanFault) (s : ScannerState) : ScanResult :=
  if connected = false then
    ⟨s, [], none⟩
  else
    let latest_block := chain.head
    let confirmation_depth := confirmation_blocks
    let to_block := latest_block - confirmation_depth
    if s.last_scanned_block ≥ to_block then
      ⟨s, [], none⟩
    else
      let from_block := s.last_scanned_block + 1
      match fault with
      | ScanFault.ok =>
        let new_events := get_all_entries chain from_block to_block
        ⟨⟨to_block⟩, new_events, some (from_block, to_block)⟩
      | ScanFault.blockNotFound =>
        ⟨⟨chain.head - confirmation_depth * 2⟩, [], some (from_block, to_block)⟩
      | ScanFault.otherError =>
        ⟨s, [], some (from_block, to_block)⟩

/-- The canonical cross-chain payload built by `process_event`
(script.py lines 233–242). -/
structure CrossChainPayload where
  sourceTransactionHash : String
  sourceBlockNumber : Int
  sender : String
  receiver : String
  amount : Int
  nonce : Int
  sourceChainId : Int
  destinationChainId : Int
deriving DecidableEq, Repr

/-- Embedding of `TransactionProcessor.process_event` (script.py lines 222–247).
Any `KeyError`/`TypeError` from a field access is caught and yields `None`;
in the embedding every failed `Option` extraction yields `none`. -/
def process_event (source_chain_id : Int) (dest_chain_id : Int)
    (event : RawEvent) : Option CrossChainPayload :=
  match event.args with
  | none => none
  | some args =>
    match args.destinationChainId with
    | none => none
    | some dcid =>
      if dcid ≠ dest_chain_id then
        none
      else
        match event.transactionHash, event.blockNumber, args.sender,
              args.receiver, args.amount, args.nonce with
        | some th, some bn, some sndr, some rcvr, some amt, some non =>
          some ⟨th, bn, sndr, rcvr, amt, non, source_chain_id, dcid⟩
        | _, _, _, _, _, _ => none

/-- Lexicographic (code-point) order on strings as lists of characters,
as `json.dumps(..., sort_keys=True)` orders dict keys. -/
def strLeB : List Char → List Char → Bool
  | [], _ => true
  | _ :: _, [] => false
  | c :: cs, d :: ds =>
    if c.toNat < d.toNat then true
    else if d.toNat < c.toNat then false
    else strLeB cs ds

/-- Key order on dict entries: compare the keys as strings. -/
def keyLe (a b : String × JVal) : Prop := strLeB a.1.data b.1.data = true

instance : DecidableRel keyLe :=
  fun a b => inferInstanceAs (Decidable (strLeB a.1.data b.1.data = true))

/-- Rendering of one value, as `json.dumps` prints it. -/
def dumpJVal : JVal → String
  | JVal.jint n => toString n
  | JVal.jstr s => "\"" ++ s ++ "\""

/-- Rendering of one `"key": value` entry, as `json.dumps` prints it. -/
def dumpEntry (e : String × JVal) : String :=
  "\"" ++ e.1 ++ "\": " ++ dumpJVal e.2

/-- Comma-space separated join, as `json.dumps` separates object entries. -/
def joinComma : List String → String
  | [] => ""
  | [x] => x
  | x :: xs => x ++ ", " ++ joinComma xs

/-- Embedding of `json.dumps(payload, sort_keys=True)` (script.py line 269): sort the dict
entries by key, then render them as a JSON object. The dict is modelled as an
association list in insertion order. -/
def canonicalSerialize (payload : List (String × JVal)) : String :=
  "\x7b" ++ joinComma ((List.insertionSort keyLe payload).map dumpEntry) ++ "\x7d"

/-- Outcome of `self.validator_account.signHash(message_hash)`: a signature,
or a raised exception. -/
inductive SignOutcome where
  | signed : String → SignOutcome
  | signFailure : String → SignOutcome
deriving DecidableEq, Repr

/-- Outcome of the HTTP POST in `_simulate_api_call`: a response with a
status code, or a raised `requests.exceptions.RequestException`. -/
inductive DeliveryOutcome where
  | response : Nat → DeliveryOutcome
  | requestFailure : String → DeliveryOutcome
deriving DecidableEq, Repr

/-- A Python `try`/`except`-all block whose handler only logs: the error is
absorbed and the function returns normally. -/
def pyTry (body : Except String Unit) : Except String Unit :=
  match body with
  | Except.ok u => Except.ok u
  | Except.error _ => Except.ok ()

/-- Embedding of `CrossChainDispatcher._simulate_api_call` (script.py lines 287–307):
the POST and `raise_for_status` run inside `try`; any
`RequestException` (including the `HTTPError` that `raise_for_status`
raises on a status ≥ 400) is caught and logged. -/
def simulate_api_call (delivery : DeliveryOutcome) : Except String Unit :=
  pyTry
    (match delivery with
     | DeliveryOutcome.requestFailure msg => Except.error msg
     | DeliveryOutcome.response status =>
       if 400 ≤ status then Except.error ("HTTP status " ++ toString status)
       else Except.ok ())

/-- Embedding of `CrossChainDispatcher.dispatch` (script.py lines 263–285): serialize the
payload canonically, hash it (`Web3.keccak`, modelled as an arbitrary function
of the serialized text), sign the hash, deliver; the whole body is wrapped in
`try`/`except Exception`, whose handler only logs. -/
def dispatch (keccak : String → List Nat) (signHash : List Nat → SignOutcome)
    (delivery : DeliveryOutcome) (payload : List (String × JVal)) :
    Except String Unit :=
  pyTry
    (let message := canonicalSerialize payload
     let message_hash := keccak message
     match signHash message_hash with
     | SignOutcome.signFailure msg => Except.error msg
     | SignOutcome.signed _sig => simulate_api_call delivery)

/-- A required field of a raw event is missing (its dict access would raise
`KeyError`/`TypeError` in `process_event`). -/
def requiredFieldMissing (event : RawEvent) : Prop :=
  event.args = none ∨ event.transactionHash = none ∨ event.blockNumber = none ∨
    ∃ args, event.args = some args ∧
      (args.sender = none ∨ args.destinationChainId = none ∨
       args.receiver = none ∨ args.amount = none ∨ args.nonce = none)

/-- The configured source chain id (`CONFIG['source_chain']['chain_id']`). -/
def sepoliaChainId : Int := 11155111

/-- The configured destination chain id
(`CONFIG['destination_chain']['chain_id']`). -/
def mumbaiChainId : Int := 80001

/-- Scenario A event: a `TokensLocked` log at block 110 addressed to the
configured destination chain with nonce 7. -/
def ev110 : RawEvent :=
  ⟨some ⟨some "0xSenderAddress", some 80001, some "0xReceiverAddress",
         some 1000, some 7⟩,
   some "0xabc123", some 110⟩

/-- Scenario A chain: head 120, carrying just `ev110`. -/
def chainA : Chain := ⟨120, [ev110]⟩


/-- One cons step of `strLeB`, phrased arithmetically. -/
theorem strLeB_cons_iff (x y : Char) (xs ys : List Char) :
    strLeB (x :: xs) (y :: ys) = true ↔
      x.toNat < y.toNat ∨ (x.toNat = y.toNat ∧ strLeB xs ys = true) := by
  simp only [strLeB]
  split_ifs with h1 h2
  · simp [h1]
  · constructor
    · intro h; exact absurd h (by simp)
    · rintro (h | ⟨h, _⟩) <;> omega
  · have hxy : x.toNat = y.toNat := by omega
    constructor
    · intro h; exact Or.inr ⟨hxy, h⟩
    · rintro (h | ⟨_, h⟩)
      · omega
      · exact h

/-- Totality of `strLeB`. -/
theorem strLeB_total : ∀ a b : List Char, strLeB a b = true ∨ strLeB b a = true
  | [], _ => Or.inl rfl
  | _ :: _, [] => Or.inr rfl
  | x :: xs, y :: ys => by
    rcases Nat.lt_trichotomy x.toNat y.toNat with h | h | h
    · left; rw [strLeB_cons_iff]; exact Or.inl h
    · rcases strLeB_total xs ys with hr | hr
      · left; rw [strLeB_cons_iff]; exact Or.inr ⟨h, hr⟩
      · right; rw [strLeB_cons_iff]; exact Or.inr ⟨h.symm, hr⟩
    · right; rw [strLeB_cons_iff]; exact Or.inl h

/-- Transitivity of `strLeB`. -/
theorem strLeB_trans : ∀ a b c : List Char,
    strLeB a b = true → strLeB b c = true → strLeB a c = true
  | [], _, _, _, _ => rfl
  | _ :: _, [], _, h1, _ => by simp [strLeB] at h1
  | _ :: _, _ :: _, [], _, h2 => by simp [strLeB] at h2
  | x :: xs, y :: ys, z :: zs, h1, h2 => by
    rw [strLeB_cons_iff] at h1 h2 ⊢
    rcases h1 with h1 | ⟨h1, hr1⟩ <;> rcases h2 with h2 | ⟨h2, hr2⟩
    · exact Or.inl (h1.trans h2)
    · exact Or.inl (by omega)
    · exact Or.inl (by omega)
    · exact Or.inr ⟨h1.trans h2, strLeB_trans xs ys zs hr1 hr2⟩

/-- Antisymmetry of `strLeB`. -/
theorem strLeB_antisymm : ∀ a b : List Char,
    strLeB a b = true → strLeB b a = true → a = b
  | [], [], _, _ => rfl
  | [], _ :: _, _, h2 => by simp [strLeB] at h2
  | _ :: _, [], h1, _ => by simp [strLeB] at h1
  | x :: xs, y :: ys, h1, h2 => by
    rw [strLeB_cons_iff] at h1 h2
    have hxy : x.toNat = y.toNat := by
      rcases h1 with h1 | ⟨h1, _⟩ <;> rcases h2 with h2 | ⟨h2, _⟩ <;> omega
    have hx : x = y := Char.ext (UInt32.ext hxy)
    have hr1 : strLeB xs ys = true := by
      rcases h1 with h1 | ⟨_, hr⟩
      · omega
      · exact hr
    have hr2 : strLeB ys xs = true := by
      rcases h2 with h2 | ⟨_, hr⟩
      · omega
      · exact hr
    rw [hx, strLeB_antisymm xs ys hr1 hr2]

instance : IsTotal (String × JVal) keyLe :=
  ⟨fun a b => strLeB_total a.1.data b.1.data⟩

instance : IsTrans (String × JVal) keyLe :=
  ⟨fun a b c => strLeB_trans a.1.data b.1.data c.1.data⟩

/-- Two sorted association lists that are permutations of each other and have
no duplicate keys are equal. -/
theorem sorted_perm_nodup_keys_eq : ∀ (l1 l2 : List (String × JVal)),
    l1.Perm l2 → l1.Sorted keyLe → l2.Sorted keyLe →
    (l1.map Prod.fst).Nodup → l1 = l2
  | [], l2, hp, _, _, _ => hp.nil_eq
  | a :: t1, [], hp, _, _, _ => by simpa using hp.eq_nil
  | a :: t1, b :: t2, hp, hs1, hs2, hnd => by
    have hab : a = b := by
      by_cases h : a = b
      · exact h
      · exfalso
        have ha2 : a ∈ b :: t2 := hp.mem_iff.mp (List.mem_cons_self a t1)
        have ha' : a ∈ t2 := by
          rcases List.mem_cons.mp ha2 with h' | h'
          · exact absurd h' h
          · exact h'
        have hb1 : b ∈ a :: t1 := hp.symm.mem_iff.mp (List.mem_cons_self b t2)
        have hb' : b ∈ t1 := by
          rcases List.mem_cons.mp hb1 with h' | h'
          · exact absurd h'.symm h
          · exact h'
        have h1 : keyLe a b := (List.sorted_cons.mp hs1).1 b hb'
        have h2 : keyLe b a := (List.sorted_cons.mp hs2).1 a ha'
        have hk : a.1 = b.1 := String.ext (strLeB_antisymm _ _ h1 h2)
        have hmem : a.1 ∈ t1.map Prod.fst := by
          rw [hk]
          exact List.mem_map_of_mem Prod.fst hb'
        have hnd' : a.1 ∉ t1.map Prod.fst ∧ (t1.map Prod.fst).Nodup := by
          rw [List.map_cons] at hnd
          exact List.nodup_cons.mp hnd
        exact hnd'.1 hmem
    subst hab
    have ht : t1.Perm t2 := hp.cons_inv
    have hnd2 : a.1 ∉ t1.map Prod.fst ∧ (t1.map Prod.fst).Nodup := by
      rw [List.map_cons] at hnd
      exact List.nodup_cons.mp hnd
    have hrec := sorted_perm_nodup_keys_eq t1 t2 ht (List.sorted_cons.mp hs1).2
      (List.sorted_cons.mp hs2).2 hnd2.2
    rw [hrec]


/-- C1: for every call to `scan_for_events`, any returned event has a block
number at most `head - confirmation_depth`, where `head` is the chain height
read at the start of the scan. -/
theorem scan_respects_confirmation_depth (chain : Chain) (confirmation_blocks : Int)
    (connected : Bool) (fault : ScanFault) (s : ScannerState) (e : RawEvent) (n : Int)
    (he : e ∈ (scan_for_events chain confirmation_blocks connected fault s).events)
    (hn : e.blockNumber = some n) :
    n ≤ chain.head - confirmation_blocks := by
  by_cases hc : connected = false
  · simp [scan_for_events, hc] at he
  · by_cases hle : s.last_scanned_block ≥ chain.head - confirmation_blocks
    · simp [scan_for_events, hc, hle] at he
    · cases fault with
      | ok =>
        simp only [scan_for_events, if_neg hc, if_neg hle] at he
        unfold get_all_entries at he
        have hr := (List.mem_filter.mp he).2
        unfold inRange at hr
        rw [hn] at hr
        simp at hr
        exact hr.2
      | blockNotFound => simp [scan_for_events, hc, hle] at he
      | otherError => simp [scan_for_events, hc, hle] at he

/-- Witness for C1 at scenario A's inputs. -/
theorem scan_respects_confirmation_depth_witness :
    ev110 ∈ (scan_for_events chainA 5 true ScanFault.ok ⟨100⟩).events ∧
    ev110.blockNumber = some 110 ∧ (110 : Int) ≤ chainA.head - 5 :=
  ⟨by decide, rfl,
    scan_respects_confirmation_depth chainA 5 true ScanFault.ok ⟨100⟩ ev110 110
      (by decide) rfl⟩

/-- C4: when the cursor is already at or past `head - confirmation_depth`,
`scan_for_events` returns an empty list and leaves the cursor unchanged,
whatever the query would have done. -/
theorem scan_no_new_blocks (chain : Chain) (confirmation_blocks : Int)
    (fault : ScanFault) (s : ScannerState)
    (h : chain.head - confirmation_blocks ≤ s.last_scanned_block) :
    scan_for_events chain confirmation_blocks true fault s = ⟨s, [], none⟩ := by
  simp [scan_for_events, h]

/-- Witness for C4: head 100, depth 5, cursor 95. -/
theorem scan_no_new_blocks_witness :
    (Chain.mk 100 []).head - 5 ≤ (ScannerState.mk 95).last_scanned_block ∧
    scan_for_events ⟨100, []⟩ 5 true ScanFault.ok ⟨95⟩ = ⟨⟨95⟩, [], none⟩ :=
  ⟨by decide, scan_no_new_blocks ⟨100, []⟩ 5 ScanFault.ok ⟨95⟩ (by decide)⟩

/-- C2 counterexample: with head 9, confirmation depth 5 and cursor 0, a
`BlockNotFound` fault leaves the cursor at `-1`, not at
`max 0 (head - 2 * depth) = 0` as claimed: the code does not clamp. -/
theorem rewind_clamp_counterexample :
    (scan_for_events ⟨9, []⟩ 5 true ScanFault.blockNotFound ⟨0⟩).state.last_scanned_block
        = -1 ∧
    ¬ ((scan_for_events ⟨9, []⟩ 5 true
          ScanFault.blockNotFound ⟨0⟩).state.last_scanned_block
        = max 0 (9 - 2 * 5)) := by
  decide

/-- C2 (amended): a `BlockNotFound` fault during the query makes the call
return an empty result and set the cursor to `head - confirmation_depth * 2`,
with no clamping to non-negative values. -/
theorem rewind_on_block_not_found (chain : Chain) (confirmation_blocks : Int)
    (s : ScannerState)
    (h : s.last_scanned_block < chain.head - confirmation_blocks) :
    scan_for_events chain confirmation_blocks true ScanFault.blockNotFound s =
      ⟨⟨chain.head - confirmation_blocks * 2⟩, [],
        some (s.last_scanned_block + 1, chain.head - confirmation_blocks)⟩ := by
  simp [scan_for_events, not_le.mpr h]

/-- Witness for C2 (amended), spec scenario C: head 200, depth 5, the fault
rewinds the cursor to 190. -/
theorem rewind_on_block_not_found_witness :
    (ScannerState.mk 100).last_scanned_block < (Chain.mk 200 []).head - 5 ∧
    scan_for_events ⟨200, []⟩ 5 true ScanFault.blockNotFound ⟨100⟩ =
      ⟨⟨190⟩, [], some (101, 195)⟩ :=
  ⟨by decide, rewind_on_block_not_found ⟨200, []⟩ 5 ⟨100⟩ (by decide)⟩

/-- C3, scenario A: head 120, confirmation depth 5, cursor 100 — the scan
queries exactly `[101, 115]`, moves the cursor to 115, returns the single
event at block 110, and the processor turns it into exactly one payload,
whose nonce is 7. -/
theorem scenarioA :
    scan_for_events chainA 5 true ScanFault.ok ⟨100⟩ =
      ⟨⟨115⟩, [ev110], some (101, 115)⟩ ∧
    ((scan_for_events chainA 5 true ScanFault.ok ⟨100⟩).events.filterMap
        (process_event sepoliaChainId mumbaiChainId)).map CrossChainPayload.nonce
      = [7] := by
  decide

/-- C6: when the connector is unavailable, or the query raises any exception
other than `BlockNotFound`, `scan_for_events` returns an empty result and the
cursor is not mutated. -/
theorem scan_recoverable_failure (chain : Chain) (confirmation_blocks : Int)
    (connected : Bool) (fault : ScanFault) (s : ScannerState)
    (h : connected = false ∨ fault = ScanFault.otherError) :
    (scan_for_events chain confirmation_blocks connected fault s).state = s ∧
    (scan_for_events chain confirmation_blocks connected fault s).events = [] := by
  rcases h with h | h
  · simp [scan_for_events, h]
  · subst h
    by_cases hc : connected = false
    · simp [scan_for_events, hc]
    · by_cases hle : s.last_scanned_block ≥ chain.head - confirmation_blocks
      · simp [scan_for_events, hc, hle]
      · simp [scan_for_events, hc, hle]

/-- Witness for C6: an unexpected error with head 120, cursor 100. -/
theorem scan_recoverable_failure_witness :
    ((true = false) ∨ ScanFault.otherError = ScanFault.otherError) ∧
    (scan_for_events chainA 5 true ScanFault.otherError ⟨100⟩).state
        = ScannerState.mk 100 ∧
    (scan_for_events chainA 5 true ScanFault.otherError ⟨100⟩).events = [] :=
  ⟨Or.inr rfl,
    scan_recoverable_failure chainA 5 true ScanFault.otherError ⟨100⟩ (Or.inr rfl)⟩

/-- C5: an event whose `destinationChainId` differs from the configured
destination chain id makes `process_event` return `none`. -/
theorem process_event_not_applicable (source_chain_id dest_chain_id : Int)
    (event : RawEvent) (args : RawEventArgs) (dcid : Int)
    (hargs : event.args = some args) (hdcid : args.destinationChainId = some dcid)
    (hne : dcid ≠ dest_chain_id) :
    process_event source_chain_id dest_chain_id event = none := by
  simp [process_event, hargs, hdcid, hne]

/-- Witness for C5: an event addressed to chain 999 is dropped by a processor
configured for the Mumbai chain id. -/
theorem process_event_not_applicable_witness :
    (RawEvent.mk (some ⟨some "0xS", some 999, some "0xR", some 5, some 3⟩)
        (some "0xdead") (some 50)).args
      = some ⟨some "0xS", some 999, some "0xR", some 5, some 3⟩ ∧
    (RawEventArgs.mk (some "0xS") (some 999) (some "0xR") (some 5)
        (some 3)).destinationChainId = some 999 ∧
    (999 : Int) ≠ mumbaiChainId ∧
    process_event sepoliaChainId mumbaiChainId
      ⟨some ⟨some "0xS", some 999, some "0xR", some 5, some 3⟩,
        some "0xdead", some 50⟩ = none :=
  ⟨rfl, rfl, by decide,
    process_event_not_applicable sepoliaChainId mumbaiChainId _ _ 999 rfl rfl
      (by decide)⟩


/-- C7: the canonical serialization used by `dispatch` is deterministic, and
two payload dicts holding the same entries — whatever their insertion order —
serialize to the same text and therefore hash identically under any hash
function of that text. -/
theorem dispatch_canonical_serialization (keccak : String → List Nat)
    (p1 p2 : List (String × JVal)) (hperm : p1.Perm p2)
    (hnd : (p1.map Prod.fst).Nodup) :
    canonicalSerialize p1 = canonicalSerialize p1 ∧
    canonicalSerialize p1 = canonicalSerialize p2 ∧
    keccak (canonicalSerialize p1) = keccak (canonicalSerialize p2) := by
  have hsort : List.insertionSort keyLe p1 = List.insertionSort keyLe p2 := by
    apply sorted_perm_nodup_keys_eq
    · exact (List.perm_insertionSort keyLe p1).trans
        (hperm.trans (List.perm_insertionSort keyLe p2).symm)
    · exact List.sorted_insertionSort keyLe p1
    · exact List.sorted_insertionSort keyLe p2
    · exact ((List.perm_insertionSort keyLe p1).map Prod.fst).nodup_iff.mpr hnd
  have hser : canonicalSerialize p1 = canonicalSerialize p2 := by
    unfold canonicalSerialize
    rw [hsort]
  exact ⟨rfl, hser, by rw [hser]⟩

/-- Witness for C7: two insertion orders of the same two-field dict. -/
theorem dispatch_canonical_serialization_witness :
    ([("nonce", JVal.jint 7), ("amount", JVal.jint 1000)] : List (String × JVal)).Perm
        [("amount", JVal.jint 1000), ("nonce", JVal.jint 7)] ∧
    (([("nonce", JVal.jint 7), ("amount", JVal.jint 1000)] :
        List (String × JVal)).map Prod.fst).Nodup ∧
    canonicalSerialize [("nonce", JVal.jint 7), ("amount", JVal.jint 1000)] =
      canonicalSerialize [("amount", JVal.jint 1000), ("nonce", JVal.jint 7)] :=
  ⟨List.Perm.swap _ _ _, by decide,
    (dispatch_canonical_serialization (fun s => [s.length])
      [("nonce", JVal.jint 7), ("amount", JVal.jint 1000)]
      [("amount", JVal.jint 1000), ("nonce", JVal.jint 7)]
      (List.Perm.swap _ _ _) (by decide)).2.1⟩

/-- C8: an event with a missing or malformed required field is dropped:
`process_event` returns `none` instead of propagating the extraction
failure. -/
theorem process_event_drops_malformed (source_chain_id dest_chain_id : Int)
    (event : RawEvent) (h : requiredFieldMissing event) :
    process_event source_chain_id dest_chain_id event = none := by
  obtain ⟨eargs, th, bn⟩ := event
  cases eargs with
  | none => rfl
  | some args =>
    obtain ⟨snd, dc, rcv, amt, non⟩ := args
    cases dc with
    | none => rfl
    | some dcid =>
      cases th <;> cases bn <;> cases snd <;> cases rcv <;> cases amt <;>
        cases non <;> simp_all [process_event, requiredFieldMissing, ite_self]

/-- Witness for C8: an event whose `args` dict is missing entirely. -/
theorem process_event_drops_malformed_witness :
    requiredFieldMissing ⟨none, some "0xdead", some 50⟩ ∧
    process_event sepoliaChainId mumbaiChainId ⟨none, some "0xdead", some 50⟩
      = none :=
  ⟨Or.inl rfl,
    process_event_drops_malformed sepoliaChainId mumbaiChainId
      ⟨none, some "0xdead", some 50⟩ (Or.inl rfl)⟩

/-- C9: `dispatch` always returns normally — a signing failure or a delivery
failure is absorbed by its exception handlers, so no exception reaches the
caller and later payloads in the same batch are not blocked. -/
theorem dispatch_never_raises (keccak : String → List Nat)
    (signHash : List Nat → SignOutcome) (delivery : DeliveryOutcome)
    (payload : List (String × JVal)) :
    dispatch keccak signHash delivery payload = Except.ok () := by
  have hpy : ∀ e : Except String Unit, pyTry e = Except.ok () := by
    intro e
    cases e with
    | ok u => cases u; rfl
    | error _ => rfl
  exact hpy _

/-- C10: every payload produced by `process_event` carries the configured
source chain id, and its destination chain id equals the configured
destination chain id. -/
theorem process_event_payload_chain_ids (source_chain_id dest_chain_id : Int)
    (event : RawEvent) (p : CrossChainPayload)
    (h : process_event source_chain_id dest_chain_id event = some p) :
    p.sourceChainId = source_chain_id ∧ p.destinationChainId = dest_chain_id := by
  obtain ⟨eargs, th, bn⟩ := event
  cases eargs with
  | none => simp [process_event] at h
  | some args =>
    obtain ⟨snd, dc, rcv, amt, non⟩ := args
    cases dc with
    | none => simp [process_event] at h
    | some dcid =>
      by_cases hne : dcid = dest_chain_id
      · subst hne
        cases th <;> cases bn <;> cases snd <;> cases rcv <;> cases amt <;>
          cases non <;> simp_all [process_event]
        rw [← h]
        exact ⟨rfl, rfl⟩
      · simp [process_event, hne] at h

/-- Witness for C10 at scenario A's event. -/
theorem process_event_payload_chain_ids_witness :
    process_event sepoliaChainId mumbaiChainId ev110 =
      some ⟨"0xabc123", 110, "0xSenderAddress", "0xReceiverAddress",
            1000, 7, sepoliaChainId, mumbaiChainId⟩ ∧
    (CrossChainPayload.mk "0xabc123" 110 "0xSenderAddress" "0xReceiverAddress"
        1000 7 sepoliaChainId mumbaiChainId).sourceChainId = sepoliaChainId ∧
    (CrossChainPayload.mk "0xabc123" 110 "0xSenderAddress" "0xReceiverAddress"
        1000 7 sepoliaChainId mumbaiChainId).destinationChainId = mumbaiChainId :=
  ⟨by decide,
    process_event_payload_chain_ids sepoliaChainId mumbaiChainId ev110 _ (by decide)⟩

end BridgeEventListener
